import Mathlib

/-!
Verification of the pipeline-kit orchestration core (crates/core) against its
natural-language specification.  The Rust source is shallowly embedded: pure
state transitions become Lean functions on explicit state, the tokio event
channel becomes an accumulated list of events, agent adapters become values
describing availability and the scripted event stream they produce, and the
async engine loop becomes a structural recursion over the step list.
-/

namespace PipelineKit

/-- Lifecycle status of a pipeline process.  Mirrors pk_protocol
process_models.rs ProcessStatus together with the Killed state that core
state/process.rs kill_process_state assigns. -/
inductive ProcessStatus where
  | pending
  | running
  | paused
  | humanReview
  | completed
  | failed
  | killed
deriving DecidableEq, Repr

/-- Runtime state of one pipeline execution, as used by crates/core
(state/process.rs create_process): id, pipeline_name, status,
current_step_index, append-only logs.  The tokio Notify resume primitive is
modelled by a counter of notify_one calls; the chrono timestamps
started_at/completed_at carry no logic relevant to the claims and are
omitted.  Uuid ids are modelled as Nat. -/
structure Process where
  id : Nat
  pipeline_name : String
  status : ProcessStatus
  current_step_index : Nat
  logs : List String
  resume_notifications : Nat
deriving DecidableEq, Repr

/-- Outbound events of pk_protocol ipc.rs Event, as emitted by core. -/
inductive Event where
  | processStarted (process_id : Nat) (pipeline_name : String)
  | processStatusUpdate (process_id : Nat) (status : ProcessStatus) (step_index : Nat)
  | processLogChunk (process_id : Nat) (content : String)
  | processCompleted (process_id : Nat)
  | processError (process_id : Nat) (error : String)
  | processKilled (process_id : Nat)
  | processResumed (process_id : Nat)
deriving DecidableEq, Repr

/-- state/process.rs create_process: fresh process in Pending state at step 0
with empty logs and a fresh resume notifier.  The generated Uuid is a
parameter. -/
def create_process (id : Nat) (pipeline_name : String) : Process :=
  { id := id
    pipeline_name := pipeline_name
    status := ProcessStatus.pending
    current_step_index := 0
    logs := []
    resume_notifications := 0 }

/-- state/process.rs start_process: transition to Running and emit a status
update event. -/
def start_process (p : Process) : Process × List Event :=
  let p1 := { p with status := ProcessStatus.running }
  (p1, [Event.processStatusUpdate p1.id p1.status p1.current_step_index])

/-- state/process.rs pause_for_human_review: transition to HumanReview and
emit a status update event. -/
def pause_for_human_review (p : Process) : Process × List Event :=
  let p1 := { p with status := ProcessStatus.humanReview }
  (p1, [Event.processStatusUpdate p1.id p1.status p1.current_step_index])

/-- state/process.rs pause_process: transition to Paused and emit a status
update event. -/
def pause_process (p : Process) : Process × List Event :=
  let p1 := { p with status := ProcessStatus.paused }
  (p1, [Event.processStatusUpdate p1.id p1.status p1.current_step_index])

/-- state/process.rs resume_process: transition to Running, emit the status
update and the ProcessResumed event, and signal the resume notifier
(notify_one, modelled as a counter increment). -/
def resume_process (p : Process) : Process × List Event :=
  let p1 := { p with status := ProcessStatus.running }
  let p2 := { p1 with resume_notifications := p1.resume_notifications + 1 }
  (p2, [Event.processStatusUpdate p1.id p1.status p1.current_step_index,
        Event.processResumed p1.id])

/-- state/process.rs complete_process: transition to Completed and emit the
status update plus the terminal ProcessCompleted event. -/
def complete_process (p : Process) : Process × List Event :=
  let p1 := { p with status := ProcessStatus.completed }
  (p1, [Event.processStatusUpdate p1.id p1.status p1.current_step_index,
        Event.processCompleted p1.id])

/-- state/process.rs fail_process: transition to Failed and emit the status
update plus the ProcessError event carrying the message. -/
def fail_process (p : Process) (error : String) : Process × List Event :=
  let p1 := { p with status := ProcessStatus.failed }
  (p1, [Event.processStatusUpdate p1.id p1.status p1.current_step_index,
        Event.processError p1.id error])

/-- state/process.rs log_to_process: append a log line and emit a log chunk
event; the status is untouched. -/
def log_to_process (p : Process) (message : String) : Process × List Event :=
  let p1 := { p with logs := p.logs ++ [message] }
  (p1, [Event.processLogChunk p1.id message])

/-- state/process.rs advance_step: increment current_step_index. -/
def advance_step (p : Process) : Process :=
  { p with current_step_index := p.current_step_index + 1 }

/-- state/process.rs kill_process_state: transition to Killed and emit the
status update plus the terminal ProcessKilled event. -/
def kill_process_state (p : Process) : Process × List Event :=
  let p1 := { p with status := ProcessStatus.killed }
  (p1, [Event.processStatusUpdate p1.id p1.status p1.current_step_index,
        Event.processKilled p1.id])

/-! Agent layer: agents/base.rs, agents/adapters/mock_agent.rs,
agents/manager.rs. -/

/-- Canonical agent event of agents/base.rs AgentEvent. -/
inductive AgentEvent where
  | thought (s : String)
  | toolCall (s : String)
  | messageChunk (s : String)
  | completed
deriving DecidableEq, Repr

/-- Error taxonomy of agents/base.rs AgentError. -/
inductive AgentError where
  | notAvailable (s : String)
  | apiError (s : String)
  | streamParseError (s : String)
  | executionError (s : String)
deriving DecidableEq, Repr

/-- Display rendering of AgentError given by its thiserror attributes in
agents/base.rs, used by the engine when formatting failure messages. -/
def AgentError.message : AgentError → String
  | AgentError.notAvailable s => "Agent not available: " ++ s
  | AgentError.apiError s => "API call failed: " ++ s
  | AgentError.streamParseError s => "Stream parsing error: " ++ s
  | AgentError.executionError s => "Execution failed: " ++ s

/-- Execution context handed to an agent.  The engine (engine/mod.rs
execute_agent_step) constructs it from the instruction alone, which is the
only field the claims depend on. -/
structure ExecutionContext where
  instruction : String
deriving DecidableEq, Repr

/-- An agent instance behind the agents/base.rs Agent trait:
check_availability is a best-effort boolean probe, and execute either fails
up front or returns the event stream, modelled as the finite list of items
the stream will yield. -/
structure AgentBehavior where
  check_availability : Bool
  execute : ExecutionContext → Except AgentError (List (Except AgentError AgentEvent))

/-- agents/adapters/mock_agent.rs MockAgent::success. -/
def mock_agent_success : AgentBehavior :=
  { check_availability := true
    execute := fun _ => Except.ok
      [Except.ok (AgentEvent.thought "Mock agent thinking"),
       Except.ok (AgentEvent.messageChunk "Mock response"),
       Except.ok AgentEvent.completed] }

/-- agents/adapters/mock_agent.rs MockAgent::failing. -/
def mock_agent_failing : AgentBehavior :=
  { check_availability := true
    execute := fun _ => Except.ok
      [Except.ok (AgentEvent.thought "Starting..."),
       Except.error (AgentError.executionError "Mock failure")] }

/-- agents/adapters/mock_agent.rs MockAgent::unavailable: execute refuses with
NotAvailable when invoked directly. -/
def mock_agent_unavailable : AgentBehavior :=
  { check_availability := false
    execute := fun _ => Except.error (AgentError.notAvailable "Mock agent not available") }

/-- agents/manager.rs AgentManager: registry of named agent instances plus
the optional fallback agent name. -/
structure AgentManager where
  agents : List (String × AgentBehavior)
  fallback_agent_name : Option String

/-- agents/manager.rs AgentManager::get_agent: lookup by name. -/
def AgentManager.get_agent (m : AgentManager) (name : String) : Option AgentBehavior :=
  (m.agents.find? (fun kv => kv.1 == name)).map (fun kv => kv.2)

/-- agents/manager.rs AgentManager::execute: look up the requested agent; if
available delegate to it; if found but unavailable, try the configured
fallback only when its name differs from the requested one; otherwise fail
with NotAvailable, with distinct wording for the not-found case. -/
def AgentManager.execute (m : AgentManager) (agent_name : String)
    (context : ExecutionContext) :
    Except AgentError (List (Except AgentError AgentEvent)) :=
  match m.get_agent agent_name with
  | some agent =>
      if agent.check_availability then
        agent.execute context
      else
        match m.fallback_agent_name with
        | some fallback_name =>
            if fallback_name ≠ agent_name then
              match m.get_agent fallback_name with
              | some fallback_agent =>
                  if fallback_agent.check_availability then
                    fallback_agent.execute context
                  else
                    Except.error (AgentError.notAvailable
                      ("Agent '" ++ agent_name ++ "' is not available and no fallback succeeded"))
              | none =>
                  Except.error (AgentError.notAvailable
                    ("Agent '" ++ agent_name ++ "' is not available and no fallback succeeded"))
            else
              Except.error (AgentError.notAvailable
                ("Agent '" ++ agent_name ++ "' is not available and no fallback succeeded"))
        | none =>
            Except.error (AgentError.notAvailable
              ("Agent '" ++ agent_name ++ "' is not available and no fallback succeeded"))
  | none =>
      Except.error (AgentError.notAvailable
        ("Agent '" ++ agent_name ++ "' not found in registry"))

/-! Pipeline definitions: pk_protocol pipeline_models.rs. -/

/-- One pipeline step: an agent invocation by name or the HUMAN_REVIEW
checkpoint (the HumanReviewMarker carries no data). -/
inductive ProcessStep where
  | humanReview
  | agent (name : String)
deriving DecidableEq, Repr

/-- pipeline_models.rs MasterAgentConfig: model and system prompt are
informational; process is the ordered step list the engine executes. -/
structure MasterAgentConfig where
  model : String
  system_prompt : String
  process : List ProcessStep
deriving DecidableEq, Repr

/-- pipeline_models.rs Pipeline.  The per-step reference/output file maps are
configuration-only and never read by the engine, so they are omitted. -/
structure Pipeline where
  name : String
  master : MasterAgentConfig
  sub_agents : List String
deriving DecidableEq, Repr

/-! Pipeline engine: engine/mod.rs. -/

/-- Event-pump loop of engine/mod.rs execute_agent_step: translate each stream
item into a log line (Thought and ToolCall get a short tag, MessageChunk is
logged verbatim), stop cleanly on Completed, and abort with an error message
on an error item.  Returns the process with accumulated logs, the emitted
events, and the error message if any. -/
def pump_agent_stream (p : Process) :
    List (Except AgentError AgentEvent) → Process × List Event × Option String
  | [] => (p, [], none)
  | item :: rest =>
      match item with
      | Except.ok (AgentEvent.thought t) =>
          let r1 := log_to_process p ("[Thought] " ++ t)
          let r2 := pump_agent_stream r1.1 rest
          (r2.1, r1.2 ++ r2.2.1, r2.2.2)
      | Except.ok (AgentEvent.toolCall t) =>
          let r1 := log_to_process p ("[Tool Call] " ++ t)
          let r2 := pump_agent_stream r1.1 rest
          (r2.1, r1.2 ++ r2.2.1, r2.2.2)
      | Except.ok (AgentEvent.messageChunk c) =>
          let r1 := log_to_process p c
          let r2 := pump_agent_stream r1.1 rest
          (r2.1, r1.2 ++ r2.2.1, r2.2.2)
      | Except.ok AgentEvent.completed => (p, [], none)
      | Except.error e => (p, [], some ("Agent error: " ++ e.message))

/-- engine/mod.rs execute_agent_step: build the execution context from the
process's pipeline name, call the agent manager, and pump the stream.  A
manager-level error is wrapped with the agent name; a stream error item
surfaces from the pump. -/
def execute_agent_step (m : AgentManager) (p : Process) (agent_name : String) :
    Process × List Event × Option String :=
  let context : ExecutionContext :=
    { instruction := "Execute step for pipeline: " ++ p.pipeline_name }
  match m.execute agent_name context with
  | Except.error e =>
      (p, [], some ("Failed to execute agent " ++ agent_name ++ ": " ++ e.message))
  | Except.ok stream => pump_agent_stream p stream

/-- Error outcome of the pump alone, without the log side effects. -/
def pump_result : List (Except AgentError AgentEvent) → Option String
  | [] => none
  | Except.ok AgentEvent.completed :: _ => none
  | Except.ok _ :: rest => pump_result rest
  | Except.error e :: _ => some ("Agent error: " ++ e.message)

/-- Error outcome of an agent step.  It depends only on the manager, the
pipeline name (through the instruction) and the agent name, never on the
accumulated logs, which is what makes step outcomes independent of history. -/
def agent_step_error (m : AgentManager) (pipeline_name agent_name : String) :
    Option String :=
  match m.execute agent_name { instruction := "Execute step for pipeline: " ++ pipeline_name } with
  | Except.error e =>
      some ("Failed to execute agent " ++ agent_name ++ ": " ++ e.message)
  | Except.ok stream => pump_result stream

/-- Step loop of engine/mod.rs PipelineEngine::run, from the enumerate-based
for loop onwards: advance the step index on every iteration after the first,
execute agent steps (failing the whole run on an agent error), and return
early in HumanReview state at a HUMAN_REVIEW step.  After the loop the
process is completed.  The Err payload of anyhow is modelled as the formatted
message string. -/
def run_steps (m : AgentManager) :
    List ProcessStep → Nat → Process → Except String Process × List Event
  | [], _, p =>
      let r := complete_process p
      (Except.ok r.1, r.2)
  | step :: rest, step_index, p =>
      let p0 := if step_index > 0 then advance_step p else p
      match step with
      | ProcessStep.agent agent_name =>
          let r1 := log_to_process p0 ("Executing agent: " ++ agent_name)
          let r2 := execute_agent_step m r1.1 agent_name
          match r2.2.2 with
          | some e =>
              let r3 := fail_process r2.1 ("Agent execution failed: " ++ e)
              (Except.error e, r1.2 ++ r2.2.1 ++ r3.2)
          | none =>
              let r3 := log_to_process r2.1 ("Agent " ++ agent_name ++ " completed")
              let r4 := run_steps m rest (step_index + 1) r3.1
              (r4.1, r1.2 ++ r2.2.1 ++ r3.2 ++ r4.2)
      | ProcessStep.humanReview =>
          let r1 := log_to_process p0 "Pausing for human review"
          let r2 := pause_for_human_review r1.1
          (Except.ok r2.1, r1.2 ++ r2.2)

/-- engine/mod.rs PipelineEngine::run: create the process, emit
ProcessStarted, transition to Running, then iterate the steps.  The Uuid the
engine generates for the process is a parameter. -/
def PipelineEngine.run (m : AgentManager) (id : Nat) (pipeline : Pipeline) :
    Except String Process × List Event :=
  let process := create_process id pipeline.name
  let started : List Event := [Event.processStarted process.id pipeline.name]
  let r1 := start_process process
  let r2 := run_steps m pipeline.master.process 0 r1.1
  (r2.1, started ++ r1.2 ++ r2.2)

/-! Process supervisor: state/manager.rs StateManager.  The two HashMaps are
modelled as association lists (insert replaces any entry with the same key);
JoinHandles carry no observable state beyond existing, so the task_handles
map becomes the list of ids holding a live handle. -/

/-- HashMap::get on the process registry. -/
def lookup_process (procs : List (Nat × Process)) (id : Nat) : Option Process :=
  (procs.find? (fun kv => kv.1 == id)).map (fun kv => kv.2)

/-- HashMap::insert on the process registry: replaces an existing entry. -/
def insert_process (procs : List (Nat × Process)) (id : Nat) (p : Process) :
    List (Nat × Process) :=
  (id, p) :: procs.filter (fun kv => !(kv.1 == id))

/-- In-place mutation through HashMap::get_mut: update the entry if present. -/
def update_process (procs : List (Nat × Process)) (id : Nat) (p : Process) :
    List (Nat × Process) :=
  procs.map (fun kv => if kv.1 == id then (kv.1, p) else kv)

/-- state/manager.rs StateManager: registry of processes and of cancellable
background task handles, both keyed by process id. -/
structure StateManager where
  processes : List (Nat × Process)
  task_handles : List Nat

/-- state/manager.rs StateManager::create_and_register_process: build a fresh
Pending process, force its id to the newly generated process id, and insert
it into the registry.  The fresh Uuid is a parameter. -/
def StateManager.create_and_register_process (sm : StateManager) (process_id : Nat)
    (pipeline_name : String) : StateManager × Nat :=
  let initial_process := { create_process process_id pipeline_name with id := process_id }
  ({ sm with processes := insert_process sm.processes process_id initial_process },
   process_id)

/-- state/manager.rs StateManager::start_pipeline: register the initial
Pending process, record the handle of the spawned background engine task, and
return the process id immediately.  The spawned run itself is asynchronous
and happens after this returns, so it is modelled as a separate later
computation. -/
def StateManager.start_pipeline (sm : StateManager) (fresh_id : Nat)
    (pipeline : Pipeline) : StateManager × Nat :=
  let r := sm.create_and_register_process fresh_id pipeline.name
  ({ r.1 with task_handles := fresh_id :: r.1.task_handles.filter (fun h => !(h == fresh_id)) },
   r.2)

/-- state/manager.rs StateManager::get_process: read-only snapshot. -/
def StateManager.get_process (sm : StateManager) (process_id : Nat) : Option Process :=
  lookup_process sm.processes process_id

/-- state/manager.rs StateManager::pause_process_by_id: look up the process,
apply pause_process, or report not-found.  Returns the new manager state, the
emitted events and the Result. -/
def StateManager.pause_process_by_id (sm : StateManager) (process_id : Nat) :
    StateManager × List Event × Except String Unit :=
  match lookup_process sm.processes process_id with
  | some p =>
      let r := pause_process p
      ({ sm with processes := update_process sm.processes process_id r.1 }, r.2,
       Except.ok ())
  | none =>
      (sm, [], Except.error ("Process " ++ toString process_id ++ " not found"))

/-- state/manager.rs StateManager::resume_process_by_id: look up the process
and apply resume_process, which also fires the resume signal; the TODO in the
source notes that no execution task is re-spawned. -/
def StateManager.resume_process_by_id (sm : StateManager) (process_id : Nat) :
    StateManager × List Event × Except String Unit :=
  match lookup_process sm.processes process_id with
  | some p =>
      let r := resume_process p
      ({ sm with processes := update_process sm.processes process_id r.1 }, r.2,
       Except.ok ())
  | none =>
      (sm, [], Except.error ("Process " ++ toString process_id ++ " not found"))

/-- state/manager.rs StateManager::kill_process: abort and drop the task
handle if one is recorded, then mark the still-registered process as Killed
(emitting its events) or report not-found.  The process entry itself is never
removed from the registry. -/
def StateManager.kill_process (sm : StateManager) (process_id : Nat) :
    StateManager × List Event × Except String Unit :=
  let handles := sm.task_handles.filter (fun h => !(h == process_id))
  match lookup_process sm.processes process_id with
  | some p =>
      let r := kill_process_state p
      ({ processes := update_process sm.processes process_id r.1,
         task_handles := handles }, r.2, Except.ok ())
  | none =>
      ({ sm with task_handles := handles }, [],
       Except.error ("Process " ++ toString process_id ++ " not found"))

/-! Adapter stdout-line handling.  The subprocess stdout is modelled as the
list of lines read; serde_json is a library collaborator, so JSON parsing is
a function parameter: parse returns the decoded value or the parse error
message.  Each embedding reproduces its adapter's per-line control flow. -/

/-- Blank-line test of the adapters, modelling Rust's
line.trim().is_empty(): true exactly when every character is whitespace. -/
def is_blank (line : String) : Bool :=
  line.data.all Char.isWhitespace

/-- agents/cli_executor.rs CliExecutor::execute, the stdout loop: skip blank
lines, yield one Ok value per parsed line and one StreamParseError (with the
source's message format) per line that fails to parse; the loop continues
after an error. -/
def cli_executor_lines {α : Type} (parse : String → Except String α)
    (lines : List String) : List (Except AgentError α) :=
  lines.filterMap (fun line =>
    if is_blank line then none
    else
      match parse line with
      | Except.ok value => some (Except.ok value)
      | Except.error e =>
          some (Except.error (AgentError.streamParseError
            ("Failed to parse JSON: " ++ e ++ " (line: " ++ line ++ ")"))))

/-- agents/adapters/claude_adapter.rs ClaudeAdapter::execute, the filter_map
over stdout lines: blank lines are dropped, a line that parses is converted
by convert_claude_message (a parameter convert, which may also drop the
message), and a line that fails to parse yields a StreamParseError item. -/
def claude_adapter_lines {μ : Type} (parse : String → Except String μ)
    (convert : μ → Option (Except AgentError AgentEvent))
    (lines : List String) : List (Except AgentError AgentEvent) :=
  lines.filterMap (fun line =>
    if is_blank line then none
    else
      match parse line with
      | Except.ok msg => convert msg
      | Except.error e =>
          some (Except.error (AgentError.streamParseError
            ("Failed to parse JSON: " ++ e ++ " (line: " ++ line ++ ")"))))

/-- Shape of a decoded Qwen stdout line as inspected by
agents/adapters/qwen_adapter.rs create_notification_stream: whether the JSON
object has a method field, whether it has an id field, and what
convert_update would turn its params into. -/
structure QwenDecoded where
  method : Option String
  has_id : Bool
  update_event : Option AgentEvent

/-- agents/adapters/qwen_adapter.rs QwenAdapter::create_notification_stream:
skip blank lines; a line that fails to parse is logged to stderr and skipped
without emitting any event; only notifications (method present, no id) with
method session/update are converted; the stream always terminates with a
synthetic Completed event. -/
def qwen_notification_stream (parse : String → Except String QwenDecoded)
    (lines : List String) : List (Except AgentError AgentEvent) :=
  (lines.filterMap (fun line =>
    if is_blank line then none
    else
      match parse line with
      | Except.error _ => none
      | Except.ok value =>
          if value.method.isSome && !value.has_id then
            if value.method = some "session/update" then
              value.update_event.map Except.ok
            else none
          else none))
  ++ [Except.ok AgentEvent.completed]

/-! Adapter selection: agents/agent_type.rs and agents/factory.rs. -/

/-- Substring test on character lists, used to model Rust str::contains. -/
def chars_contain (pat : List Char) : List Char → Bool
  | [] => pat.isPrefixOf ([] : List Char)
  | c :: rest => pat.isPrefixOf (c :: rest) || chars_contain pat rest

/-- Rust str::contains on strings. -/
def str_contains (s pat : String) : Bool :=
  chars_contain pat.data s.data

/-- Rust str::starts_with on strings. -/
def str_starts_with (s pat : String) : Bool :=
  pat.data.isPrefixOf s.data

/-- Rust str::to_lowercase (the model names involved are ASCII). -/
def str_to_lower (s : String) : String :=
  String.mk (s.data.map Char.toLower)

/-- agents/agent_type.rs AgentType. -/
inductive AgentType where
  | claude
  | cursor
  | gemini
  | codex
  | qwen
  | mock
deriving DecidableEq, Repr

/-- agents/agent_type.rs AgentType::from_model_name: lowercase the model name,
then select by substring and starts_with tests in source order, defaulting to
Mock when nothing matches. -/
def AgentType.from_model_name (model : String) : AgentType :=
  let model_lower := str_to_lower model
  if str_contains model_lower "claude" then AgentType.claude
  else if str_starts_with model_lower "gpt" || str_contains model_lower "cursor"
      || str_starts_with model_lower "sonnet" || str_starts_with model_lower "opus" then
    AgentType.cursor
  else if str_contains model_lower "gemini" then AgentType.gemini
  else if str_contains model_lower "codex" then AgentType.codex
  else if str_contains model_lower "qwen" then AgentType.qwen
  else AgentType.mock

/-- Agent configuration of pk_protocol agent_models.rs. -/
structure AgentConfig where
  name : String
  description : String
  model : String
  color : String
  system_prompt : String
deriving DecidableEq, Repr

/-- The adapter instance the factory constructs.  Each real adapter's
constructor (ClaudeAdapter::new, CursorAdapter::new, GeminiAdapter::new,
CodexAdapter::new) stores name, model and system prompt and always returns
Ok; the Qwen arm and the Mock arm fall back to the mock variants. -/
inductive AgentInstance where
  | claudeAdapter (name model system_prompt : String)
  | cursorAdapter (name model system_prompt : String)
  | geminiAdapter (name model system_prompt : String)
  | codexAdapter (name model system_prompt : String)
  | mockSuccess
  | mockFailing
  | mockUnavailable
deriving DecidableEq, Repr

/-- agents/factory.rs AgentFactory::create: dispatch on
AgentType::from_model_name.  The Qwen arm logs a warning and uses
MockAgent::success; the Mock arm picks the failing or unavailable mock for
the two dedicated test model names and MockAgent::success otherwise.  Every
arm returns Ok. -/
def AgentFactory.create (config : AgentConfig) : Except AgentError AgentInstance :=
  match AgentType.from_model_name config.model with
  | AgentType.claude =>
      Except.ok (AgentInstance.claudeAdapter config.name config.model config.system_prompt)
  | AgentType.cursor =>
      Except.ok (AgentInstance.cursorAdapter config.name config.model config.system_prompt)
  | AgentType.gemini =>
      Except.ok (AgentInstance.geminiAdapter config.name config.model config.system_prompt)
  | AgentType.codex =>
      Except.ok (AgentInstance.codexAdapter config.name config.model config.system_prompt)
  | AgentType.qwen => Except.ok AgentInstance.mockSuccess
  | AgentType.mock =>
      if config.model = "test-failure-model" then Except.ok AgentInstance.mockFailing
      else if config.model = "test-unavailable-model" then Except.ok AgentInstance.mockUnavailable
      else Except.ok AgentInstance.mockSuccess

/-! Instructions-file creation: agents/adapters/qwen_adapter.rs
ensure_qwen_md.  The project filesystem is modelled as a partial map from
path to file content; tokio::fs::write is assumed to succeed (an IO failure
is an environment fault outside the algorithm). -/

/-- Partial map from file path to content. -/
def FileSystem : Type := String → Option String

/-- Path of the instructions file at the project root. -/
def qwen_md_path (project_path : String) : String :=
  project_path ++ "/QWEN.md"

/-- qwen_adapter.rs ensure_qwen_md: if QWEN.md already exists at the project
root do nothing, otherwise create it containing a header plus the system
prompt. -/
def ensure_qwen_md (system_prompt : String) (project_path : String)
    (fs : FileSystem) : FileSystem :=
  match fs (qwen_md_path project_path) with
  | some _ => fs
  | none =>
      fun path =>
        if path = qwen_md_path project_path then some ("# QWEN\n\n" ++ system_prompt)
        else fs path

/-! Lifecycle transition machine, gathering the transition operations that the
Engine and Supervisor apply to a process (state/process.rs). -/

/-- One lifecycle transition operation, as invoked by the Engine
(start/human-review/complete/fail) or Supervisor (pause/resume/kill). -/
inductive SupervisorOp where
  | start
  | humanReviewPause
  | pause
  | resume
  | complete
  | fail (error : String)
  | kill
deriving DecidableEq

/-- Dispatch of each operation to its state/process.rs transition function. -/
def apply_transition : SupervisorOp → Process → Process × List Event
  | SupervisorOp.start, p => start_process p
  | SupervisorOp.humanReviewPause, p => pause_for_human_review p
  | SupervisorOp.pause, p => pause_process p
  | SupervisorOp.resume, p => resume_process p
  | SupervisorOp.complete, p => complete_process p
  | SupervisorOp.fail e, p => fail_process p e
  | SupervisorOp.kill, p => kill_process_state p

/-- Status each operation drives the process into. -/
def transition_target : SupervisorOp → ProcessStatus
  | SupervisorOp.start => ProcessStatus.running
  | SupervisorOp.humanReviewPause => ProcessStatus.humanReview
  | SupervisorOp.pause => ProcessStatus.paused
  | SupervisorOp.resume => ProcessStatus.running
  | SupervisorOp.complete => ProcessStatus.completed
  | SupervisorOp.fail _ => ProcessStatus.failed
  | SupervisorOp.kill => ProcessStatus.killed

/-- Modelled from the spec (section 4.3, quoted by the claim): the legal
lifecycle edges.  Pending goes to Running; Running goes to Completed, Failed,
Killed, HumanReview or Paused; HumanReview and Paused go back to Running;
Killed, Completed and Failed are terminal.  This definition follows the
spec's words, for comparison against the code's transition functions. -/
def spec_legal_edge : ProcessStatus → ProcessStatus → Bool
  | ProcessStatus.pending, ProcessStatus.running => true
  | ProcessStatus.running, ProcessStatus.completed => true
  | ProcessStatus.running, ProcessStatus.failed => true
  | ProcessStatus.running, ProcessStatus.killed => true
  | ProcessStatus.running, ProcessStatus.humanReview => true
  | ProcessStatus.running, ProcessStatus.paused => true
  | ProcessStatus.humanReview, ProcessStatus.running => true
  | ProcessStatus.paused, ProcessStatus.running => true
  | _, _ => false

/-- Recognizer for StreamParseError stream items. -/
def is_stream_parse_error {α : Type} : Except AgentError α → Bool
  | Except.error (AgentError.streamParseError _) => true
  | _ => false

/-! Concrete fixtures used by the claim theorems, mirroring the test
fixtures of engine/mod.rs and state/manager.rs (MockAgent::success registered
under each configured agent name, as AgentManager::new does). -/

/-- Manager with two always-succeeding mock agents. -/
def review_manager : AgentManager :=
  { agents := [("agent1", mock_agent_success), ("agent2", mock_agent_success)]
    fallback_agent_name := none }

/-- Pipeline with a HUMAN_REVIEW checkpoint between two agent steps, the
shape used by test_pipeline_engine_with_human_review and by
test_resume_process_by_id_acceptance. -/
def review_pipeline : Pipeline :=
  { name := "review-pipeline"
    master := { model := "test-model", system_prompt := "Test orchestration"
                process := [ProcessStep.agent "agent1", ProcessStep.humanReview,
                            ProcessStep.agent "agent2"] }
    sub_agents := ["agent1", "agent2"] }

/-- Manager with one succeeding and one failing mock agent. -/
def failing_manager : AgentManager :=
  { agents := [("good", mock_agent_success), ("bad", mock_agent_failing)]
    fallback_agent_name := none }

/-- Pipeline whose second step runs the failing agent. -/
def failing_pipeline : Pipeline :=
  { name := "failing-pipeline"
    master := { model := "test-model", system_prompt := "Test orchestration"
                process := [ProcessStep.agent "good", ProcessStep.agent "bad",
                            ProcessStep.agent "good"] }
    sub_agents := ["good", "bad"] }

/-- Pipeline of two always-succeeding agent steps. -/
def success_pipeline : Pipeline :=
  { name := "success-pipeline"
    master := { model := "test-model", system_prompt := "Test orchestration"
                process := [ProcessStep.agent "agent1", ProcessStep.agent "agent2"] }
    sub_agents := ["agent1", "agent2"] }

/-- Supervisor state holding one running process with a live task handle. -/
def running_supervisor : StateManager :=
  { processes := [(1, { id := 1, pipeline_name := "long-running",
                        status := ProcessStatus.running, current_step_index := 0,
                        logs := [], resume_notifications := 0 })]
    task_handles := [1] }

/-- Process already in the terminal Completed state. -/
def completed_process_example : Process :=
  { id := 1, pipeline_name := "simple-pipeline", status := ProcessStatus.completed
    current_step_index := 0, logs := [], resume_notifications := 0 }

/-- JSON parse oracle that rejects every line, standing for serde_json on
input that is not JSON. -/
def reject_all_parse : String → Except String QwenDecoded :=
  fun _ => Except.error "expected value"

/-- The same rejecting oracle at the CliExecutor value type. -/
def reject_all_parse_cli : String → Except String Unit :=
  fun _ => Except.error "expected value"

/-- Empty project filesystem. -/
def empty_fs : FileSystem := fun _ => none

/-- Manager whose primary agent is unavailable and whose configured fallback
agent succeeds. -/
def fallback_manager : AgentManager :=
  { agents := [("primary", mock_agent_unavailable), ("backup", mock_agent_success)]
    fallback_agent_name := some "backup" }

/-- Agent configuration with a model name matching no adapter pattern. -/
def unknown_model_config : AgentConfig :=
  { name := "ghost", description := "Test agent ghost", model := "unknown-model"
    color := "blue", system_prompt := "Test prompt" }

/-! Helper lemmas about the engine's event pump and agent steps. -/

/-- Pumping an agent stream never changes id, pipeline name, status or step
index; it only appends log lines, and its error outcome is pump_result of
the stream. -/
theorem pump_agent_stream_fields (s : List (Except AgentError AgentEvent)) (p : Process) :
    (pump_agent_stream p s).1.id = p.id ∧
    (pump_agent_stream p s).1.pipeline_name = p.pipeline_name ∧
    (pump_agent_stream p s).1.status = p.status ∧
    (pump_agent_stream p s).1.current_step_index = p.current_step_index ∧
    (pump_agent_stream p s).2.2 = pump_result s ∧
    ∃ added, (pump_agent_stream p s).1.logs = p.logs ++ added := by
  induction s generalizing p with
  | nil => exact ⟨rfl, rfl, rfl, rfl, rfl, [], by simp [pump_agent_stream]⟩
  | cons item rest ih =>
      match item with
      | Except.ok (AgentEvent.thought t) =>
          obtain ⟨h1, h2, h3, h4, h5, added, h6⟩ :=
            ih { p with logs := p.logs ++ ["[Thought] " ++ t] }
          refine ⟨?_, ?_, ?_, ?_, ?_, ("[Thought] " ++ t) :: added, ?_⟩ <;>
            simp [pump_agent_stream, log_to_process, pump_result, h1, h2, h3, h4, h5, h6]
      | Except.ok (AgentEvent.toolCall t) =>
          obtain ⟨h1, h2, h3, h4, h5, added, h6⟩ :=
            ih { p with logs := p.logs ++ ["[Tool Call] " ++ t] }
          refine ⟨?_, ?_, ?_, ?_, ?_, ("[Tool Call] " ++ t) :: added, ?_⟩ <;>
            simp [pump_agent_stream, log_to_process, pump_result, h1, h2, h3, h4, h5, h6]
      | Except.ok (AgentEvent.messageChunk c) =>
          obtain ⟨h1, h2, h3, h4, h5, added, h6⟩ :=
            ih { p with logs := p.logs ++ [c] }
          refine ⟨?_, ?_, ?_, ?_, ?_, c :: added, ?_⟩ <;>
            simp [pump_agent_stream, log_to_process, pump_result, h1, h2, h3, h4, h5, h6]
      | Except.ok AgentEvent.completed =>
          exact ⟨rfl, rfl, rfl, rfl, rfl, [], by simp [pump_agent_stream]⟩
      | Except.error e =>
          exact ⟨rfl, rfl, rfl, rfl, rfl, [], by simp [pump_agent_stream]⟩

/-- An agent step never changes id, pipeline name, status or step index; it
only appends log lines, and its error outcome is agent_step_error, which
depends only on the manager, the pipeline name and the agent name. -/
theorem execute_agent_step_fields (m : AgentManager) (p : Process) (agent_name : String) :
    (execute_agent_step m p agent_name).1.id = p.id ∧
    (execute_agent_step m p agent_name).1.pipeline_name = p.pipeline_name ∧
    (execute_agent_step m p agent_name).1.status = p.status ∧
    (execute_agent_step m p agent_name).1.current_step_index = p.current_step_index ∧
    (execute_agent_step m p agent_name).2.2 = agent_step_error m p.pipeline_name agent_name ∧
    ∃ added, (execute_agent_step m p agent_name).1.logs = p.logs ++ added := by
  cases h : m.execute agent_name
      { instruction := "Execute step for pipeline: " ++ p.pipeline_name } with
  | error e =>
      refine ⟨?_, ?_, ?_, ?_, ?_, [], ?_⟩ <;>
        simp [execute_agent_step, agent_step_error, h]
  | ok stream =>
      obtain ⟨h1, h2, h3, h4, h5, added, h6⟩ := pump_agent_stream_fields stream p
      refine ⟨?_, ?_, ?_, ?_, ?_, added, ?_⟩ <;>
        simp [execute_agent_step, agent_step_error, h, h1, h2, h3, h4, h5, h6]

/-- Step loop on a list of agent steps whose agents all succeed: the loop
completes the process, advancing the step index once per step after the
first iteration, appending at least one log line per step, and ending the
event trace with the completion events. -/
theorem run_steps_success (m : AgentManager) (steps : List ProcessStep) :
    ∀ (step_index : Nat) (p : Process),
      (∀ s ∈ steps, ∃ n, s = ProcessStep.agent n ∧
        agent_step_error m p.pipeline_name n = none) →
      ∃ q mid,
        run_steps m steps step_index p =
          (Except.ok q,
           mid ++ [Event.processStatusUpdate q.id ProcessStatus.completed q.current_step_index,
                   Event.processCompleted q.id]) ∧
        q.id = p.id ∧ q.pipeline_name = p.pipeline_name ∧
        q.status = ProcessStatus.completed ∧
        q.current_step_index =
          p.current_step_index + (if step_index = 0 then steps.length - 1 else steps.length) ∧
        ∃ added, q.logs = p.logs ++ added ∧ steps.length ≤ added.length := by
  induction steps with
  | nil =>
      intro step_index p _
      refine ⟨{ p with status := ProcessStatus.completed }, [], ?_, rfl, rfl, rfl, ?_, [], ?_, ?_⟩
      · simp [run_steps, complete_process]
      · split <;> simp
      · simp
      · simp
  | cons step rest ih =>
      intro step_index p hsteps
      obtain ⟨n, hstep, herr⟩ := hsteps step (by simp)
      subst hstep
      set p0 := if step_index > 0 then advance_step p else p with hp0
      have hp0_fields : p0.id = p.id ∧ p0.pipeline_name = p.pipeline_name ∧
          p0.logs = p.logs ∧
          p0.current_step_index =
            p.current_step_index + (if step_index = 0 then 0 else 1) := by
        rw [hp0]
        rcases Nat.eq_zero_or_pos step_index with h | h
        · simp [h, advance_step]
        · simp [Nat.pos_iff_ne_zero.mp h, advance_step, Nat.not_eq_zero_of_lt h, h]
      obtain ⟨hp0id, hp0pn, hp0logs, hp0csi⟩ := hp0_fields
      set p1 := (log_to_process p0 ("Executing agent: " ++ n)).1 with hp1
      have hp1_fields : p1.id = p.id ∧ p1.pipeline_name = p.pipeline_name ∧
          p1.logs = p.logs ++ ["Executing agent: " ++ n] ∧
          p1.current_step_index = p0.current_step_index := by
        rw [hp1]
        simp [log_to_process, hp0id, hp0pn, hp0logs]
      obtain ⟨hp1id, hp1pn, hp1logs, hp1csi⟩ := hp1_fields
      obtain ⟨he1, he2, he3, he4, he5, added2, he6⟩ := execute_agent_step_fields m p1 n
      rw [hp1pn, herr] at he5
      set p2 := (execute_agent_step m p1 n).1 with hp2
      set p3 := (log_to_process p2 ("Agent " ++ n ++ " completed")).1 with hp3
      have hp3_fields : p3.id = p.id ∧ p3.pipeline_name = p.pipeline_name ∧
          p3.logs = p.logs ++ (["Executing agent: " ++ n] ++ added2 ++
            ["Agent " ++ n ++ " completed"]) ∧
          p3.current_step_index = p0.current_step_index := by
        rw [hp3]
        refine ⟨by simp [log_to_process, he1, hp1id], by simp [log_to_process, he2, hp1pn],
          ?_, by simp [log_to_process, he4, hp1csi]⟩
        simp [log_to_process, he6, hp1logs]
      obtain ⟨hp3id, hp3pn, hp3logs, hp3csi⟩ := hp3_fields
      obtain ⟨q, mid, hrun, hqid, hqpn, hqst, hqcsi, added3, hqlogs, hqlen⟩ :=
        ih (step_index + 1) p3 (by
          intro s hs
          obtain ⟨n2, hn2, herr2⟩ := hsteps s (by simp [hs])
          exact ⟨n2, hn2, by rw [hp3pn]; exact herr2⟩)
      refine ⟨q, (log_to_process p0 ("Executing agent: " ++ n)).2 ++
        (execute_agent_step m p1 n).2.1 ++
        (log_to_process p2 ("Agent " ++ n ++ " completed")).2 ++ mid, ?_, ?_, ?_, ?_, ?_, ?_⟩
      · show run_steps m (ProcessStep.agent n :: rest) step_index p = _
        rw [run_steps]
        simp only [← hp0, ← hp1, ← hp2, ← hp3, he5, hrun]
        simp [List.append_assoc]
      · rw [hqid, hp3id]
      · rw [hqpn, hp3pn]
      · exact hqst
      · rw [hqcsi, hp3csi, hp0csi]
        rcases Nat.eq_zero_or_pos step_index with h | h
        · simp [h, Nat.add_comm, Nat.add_assoc]
        · have : ¬ step_index = 0 := Nat.pos_iff_ne_zero.mp h
          simp [this]
          omega
      · refine ⟨["Executing agent: " ++ n] ++ added2 ++
          ["Agent " ++ n ++ " completed"] ++ added3, ?_, ?_⟩
        · rw [hqlogs, hp3logs]
          simp [List.append_assoc]
        · simp
          omega

/-- Step loop on a prefix of succeeding agent steps followed by an agent step
whose agent errors: the loop stops at the failing step with an error result,
and the event trace ends with the Failed status update and the descriptive
ProcessError event, so nothing after the failing step is executed or
logged. -/
theorem run_steps_failure (m : AgentManager) (pre : List ProcessStep) :
    ∀ (step_index : Nat) (p : Process) (agent_name : String)
      (post : List ProcessStep) (e : String),
      (∀ s ∈ pre, ∃ n, s = ProcessStep.agent n ∧
        agent_step_error m p.pipeline_name n = none) →
      agent_step_error m p.pipeline_name agent_name = some e →
      ∃ mid k,
        run_steps m (pre ++ ProcessStep.agent agent_name :: post) step_index p =
          (Except.error e,
           mid ++ [Event.processStatusUpdate p.id ProcessStatus.failed k,
                   Event.processError p.id ("Agent execution failed: " ++ e)]) := by
  induction pre with
  | nil =>
      intro step_index p agent_name post e _ herr
      set p0 := if step_index > 0 then advance_step p else p with hp0
      have hp0_fields : p0.id = p.id ∧ p0.pipeline_name = p.pipeline_name := by
        rw [hp0]
        rcases Nat.eq_zero_or_pos step_index with h | h
        · simp [h, advance_step]
        · simp [advance_step, h]
      obtain ⟨hp0id, hp0pn⟩ := hp0_fields
      set p1 := (log_to_process p0 ("Executing agent: " ++ agent_name)).1 with hp1
      have hp1id : p1.id = p.id := by rw [hp1]; simp [log_to_process, hp0id]
      have hp1pn : p1.pipeline_name = p.pipeline_name := by
        rw [hp1]; simp [log_to_process, hp0pn]
      obtain ⟨he1, _, _, _, he5, _, _⟩ := execute_agent_step_fields m p1 agent_name
      rw [hp1pn, herr] at he5
      set p2 := (execute_agent_step m p1 agent_name).1 with hp2
      refine ⟨(log_to_process p0 ("Executing agent: " ++ agent_name)).2 ++
        (execute_agent_step m p1 agent_name).2.1, p2.current_step_index, ?_⟩
      show run_steps m (ProcessStep.agent agent_name :: post) step_index p = _
      rw [run_steps]
      simp only [← hp0, ← hp1, ← hp2, he5]
      simp [fail_process, List.append_assoc, he1, hp1id]
  | cons step rest ih =>
      intro step_index p agent_name post e hpre herr
      obtain ⟨n, hstep, herrn⟩ := hpre step (by simp)
      subst hstep
      set p0 := if step_index > 0 then advance_step p else p with hp0
      have hp0_fields : p0.id = p.id ∧ p0.pipeline_name = p.pipeline_name := by
        rw [hp0]
        rcases Nat.eq_zero_or_pos step_index with h | h
        · simp [h, advance_step]
        · simp [advance_step, h]
      obtain ⟨hp0id, hp0pn⟩ := hp0_fields
      set p1 := (log_to_process p0 ("Executing agent: " ++ n)).1 with hp1
      have hp1id : p1.id = p.id := by rw [hp1]; simp [log_to_process, hp0id]
      have hp1pn : p1.pipeline_name = p.pipeline_name := by
        rw [hp1]; simp [log_to_process, hp0pn]
      obtain ⟨he1, he2, _, _, he5, _, _⟩ := execute_agent_step_fields m p1 n
      rw [hp1pn, herrn] at he5
      set p2 := (execute_agent_step m p1 n).1 with hp2
      set p3 := (log_to_process p2 ("Agent " ++ n ++ " completed")).1 with hp3
      have hp3id : p3.id = p.id := by rw [hp3]; simp [log_to_process, he1, hp1id]
      have hp3pn : p3.pipeline_name = p.pipeline_name := by
        rw [hp3]; simp [log_to_process, he2, hp1pn]
      obtain ⟨mid, k, hrun⟩ := ih (step_index + 1) p3 agent_name post e
        (by
          intro s hs
          obtain ⟨n2, hn2, herr2⟩ := hpre s (by simp [hs])
          exact ⟨n2, hn2, by rw [hp3pn]; exact herr2⟩)
        (by rw [hp3pn]; exact herr)
      rw [hp3id] at hrun
      refine ⟨(log_to_process p0 ("Executing agent: " ++ n)).2 ++
        (execute_agent_step m p1 n).2.1 ++
        (log_to_process p2 ("Agent " ++ n ++ " completed")).2 ++ mid, k, ?_⟩
      show run_steps m (ProcessStep.agent n :: (rest ++ ProcessStep.agent agent_name :: post))
          step_index p = _
      rw [run_steps]
      simp only [← hp0, ← hp1, ← hp2, ← hp3, he5, hrun]
      simp [List.append_assoc]

/-- C3: for every pipeline whose steps are all Agent steps and whose agents
all succeed (their streams end in Completed without an error item), the run
starts the process in Pending state, emits Running first, returns Ok with the
process Completed, leaves current_step_index at the number of steps minus
one, and appends at least one log line per step. -/
theorem C3_all_success_completes (m : AgentManager) (id : Nat) (pipeline : Pipeline)
    (hall : ∀ s ∈ pipeline.master.process, ∃ n, s = ProcessStep.agent n ∧
      agent_step_error m pipeline.name n = none) :
    ∃ q rest_events,
      PipelineEngine.run m id pipeline =
        (Except.ok q,
         Event.processStarted id pipeline.name ::
         Event.processStatusUpdate id ProcessStatus.running 0 :: rest_events) ∧
      (create_process id pipeline.name).status = ProcessStatus.pending ∧
      q.status = ProcessStatus.completed ∧
      q.current_step_index = pipeline.master.process.length - 1 ∧
      pipeline.master.process.length ≤ q.logs.length ∧
      Event.processCompleted id ∈ rest_events := by
  obtain ⟨q, mid, hrun, hqid, hqpn, hqst, hqcsi, added, hqlogs, hqlen⟩ :=
    run_steps_success m pipeline.master.process 0
      (start_process (create_process id pipeline.name)).1 (by
        intro s hs
        obtain ⟨n, hn, herr⟩ := hall s hs
        exact ⟨n, hn, herr⟩)
  have hid : (start_process (create_process id pipeline.name)).1.id = id := rfl
  rw [hid] at hqid
  refine ⟨q, mid ++ [Event.processStatusUpdate q.id ProcessStatus.completed
    q.current_step_index, Event.processCompleted q.id], ?_, rfl, hqst, ?_, ?_, ?_⟩
  · show (_, _) = _
    simp only [hrun]
    simp [start_process, create_process]
  · rw [hqcsi]
    simp [start_process, create_process]
  · rw [hqlogs]
    simpa [start_process, create_process] using hqlen
  · simp [hqid]

/-- C3 witness: a two-agent pipeline with always-succeeding mock agents
completes with step index 1 and at least two log lines. -/
theorem C3_all_success_witness :
    ∃ q rest_events,
      PipelineEngine.run review_manager 11 success_pipeline =
        (Except.ok q,
         Event.processStarted 11 "success-pipeline" ::
         Event.processStatusUpdate 11 ProcessStatus.running 0 :: rest_events) ∧
      (create_process 11 "success-pipeline").status = ProcessStatus.pending ∧
      q.status = ProcessStatus.completed ∧
      q.current_step_index = success_pipeline.master.process.length - 1 ∧
      success_pipeline.master.process.length ≤ q.logs.length ∧
      Event.processCompleted 11 ∈ rest_events := by
  have h := C3_all_success_completes review_manager 11 success_pipeline (by
    intro s hs
    simp only [success_pipeline] at hs
    simp only [List.mem_cons, List.mem_singleton, List.not_mem_nil, or_false] at hs
    rcases hs with h1 | h2
    · exact ⟨"agent1", h1, rfl⟩
    · exact ⟨"agent2", h2, rfl⟩)
  simpa [success_pipeline] using h

/-- C2: for every pipeline run in which an agent step yields an AgentError
(either the Agent Manager fails to return a stream or an error item appears
in the stream, both captured by agent_step_error), the run returns an error,
the process is transitioned to Failed (its status update event is emitted),
a descriptive error event is emitted, and these failure events close the
trace, so no step after the failing one executes or logs anything. -/
theorem C2_agent_error_aborts_run (m : AgentManager) (id : Nat) (pipeline : Pipeline)
    (pre post : List ProcessStep) (agent_name : String) (e : String)
    (hsteps : pipeline.master.process = pre ++ ProcessStep.agent agent_name :: post)
    (hpre : ∀ s ∈ pre, ∃ n, s = ProcessStep.agent n ∧
      agent_step_error m pipeline.name n = none)
    (herr : agent_step_error m pipeline.name agent_name = some e) :
    ∃ mid k,
      PipelineEngine.run m id pipeline =
        (Except.error e,
         Event.processStarted id pipeline.name ::
         Event.processStatusUpdate id ProcessStatus.running 0 ::
         (mid ++ [Event.processStatusUpdate id ProcessStatus.failed k,
                  Event.processError id ("Agent execution failed: " ++ e)])) := by
  obtain ⟨mid, k, hrun⟩ :=
    run_steps_failure m pre 0 (start_process (create_process id pipeline.name)).1
      agent_name post e
      (by
        intro s hs
        obtain ⟨n, hn, herrn⟩ := hpre s hs
        exact ⟨n, hn, herrn⟩)
      herr
  have hid : (start_process (create_process id pipeline.name)).1.id = id := rfl
  rw [hid] at hrun
  refine ⟨mid, k, ?_⟩
  unfold PipelineEngine.run
  simp only [hsteps, hrun]
  simp [start_process, create_process]

/-- C2 witness: a pipeline whose second agent is the failing mock aborts with
the formatted stream error, the Failed transition and the error event. -/
theorem C2_agent_error_witness :
    ∃ mid k,
      PipelineEngine.run failing_manager 3 failing_pipeline =
        (Except.error "Agent error: Execution failed: Mock failure",
         Event.processStarted 3 "failing-pipeline" ::
         Event.processStatusUpdate 3 ProcessStatus.running 0 ::
         (mid ++ [Event.processStatusUpdate 3 ProcessStatus.failed k,
                  Event.processError 3
                    ("Agent execution failed: " ++
                     "Agent error: Execution failed: Mock failure")])) := by
  have h := C2_agent_error_aborts_run failing_manager 3 failing_pipeline
    [ProcessStep.agent "good"] [ProcessStep.agent "good"] "bad"
    "Agent error: Execution failed: Mock failure" rfl
    (by
      intro s hs
      simp only [List.mem_singleton] at hs
      exact ⟨"good", hs, rfl⟩)
    rfl
  simpa [failing_pipeline] using h

/-- C1: evaluation of the code at the claim's scenario, the pipeline
[Agent agent1, HUMAN_REVIEW, Agent agent2] of the repository's own acceptance
test.  PipelineEngine::run RETURNS Ok with the process parked in HumanReview
at step index 1 instead of blocking on the resume signal: no log line of the
step after the checkpoint appears, no completion event is emitted, and
resume_process afterwards merely flips the status to Running, emits the
resumed event and fires the notifier — there is no parked run left to
continue, contradicting the claim (and the source's
test_resume_process_by_id_acceptance, which waits for completion after
resume). -/
theorem C1_engine_returns_at_human_review :
    (PipelineEngine.run review_manager 7 review_pipeline).1 =
      Except.ok
        { id := 7, pipeline_name := "review-pipeline",
          status := ProcessStatus.humanReview, current_step_index := 1,
          logs := ["Executing agent: agent1", "[Thought] Mock agent thinking",
                   "Mock response", "Agent agent1 completed", "Pausing for human review"],
          resume_notifications := 0 } ∧
    Event.processLogChunk 7 "Executing agent: agent2" ∉
      (PipelineEngine.run review_manager 7 review_pipeline).2 ∧
    Event.processCompleted 7 ∉ (PipelineEngine.run review_manager 7 review_pipeline).2 ∧
    (resume_process
      { id := 7, pipeline_name := "review-pipeline",
        status := ProcessStatus.humanReview, current_step_index := 1,
        logs := ["Executing agent: agent1", "[Thought] Mock agent thinking",
                 "Mock response", "Agent agent1 completed", "Pausing for human review"],
        resume_notifications := 0 }).1.status = ProcessStatus.running ∧
    Event.processResumed 7 ∈
      (resume_process
        { id := 7, pipeline_name := "review-pipeline",
          status := ProcessStatus.humanReview, current_step_index := 1,
          logs := ["Executing agent: agent1", "[Thought] Mock agent thinking",
                   "Mock response", "Agent agent1 completed", "Pausing for human review"],
          resume_notifications := 0 }).2 := by
  refine ⟨rfl, by decide, by decide, rfl, by decide⟩

/-- C4 counterexample: a process in the terminal Completed state is moved to
Paused by the Supervisor's pause operation (StateManager::pause_process_by_id
applies pause_process unconditionally), although Completed-to-Paused is not a
legal edge of the spec's lifecycle state machine. -/
theorem C4_illegal_transition_counterexample :
    completed_process_example.status = ProcessStatus.completed ∧
    (apply_transition SupervisorOp.pause completed_process_example).1.status =
      ProcessStatus.paused ∧
    ((StateManager.mk [(1, completed_process_example)] []).pause_process_by_id 1).1.get_process 1 =
      some { completed_process_example with status := ProcessStatus.paused } ∧
    spec_legal_edge ProcessStatus.completed ProcessStatus.paused = false := by
  refine ⟨rfl, rfl, rfl, rfl⟩

/-- C4 (amended): each Engine/Supervisor transition operation (start,
human-review pause, pause, resume, complete, fail, kill) sets the status
unconditionally to that operation's target status, whatever the current
status is — in particular the terminal states Killed, Completed and Failed
are not protected — and no transition operation modifies the logs or the
step index. -/
theorem C4_transitions_unconditional (op : SupervisorOp) (p : Process) :
    (apply_transition op p).1.status = transition_target op ∧
    (apply_transition op p).1.logs = p.logs ∧
    (apply_transition op p).1.current_step_index = p.current_step_index := by
  cases op <;>
    simp [apply_transition, transition_target, start_process, pause_for_human_review,
      pause_process, resume_process, complete_process, fail_process, kill_process_state]

/-- C5 counterexample: killing the same running process twice: the first kill
emits one kill event, and the second kill also succeeds (it is neither a
no-op nor a not-found error, because the process entry stays in the registry)
and emits a second kill event. -/
theorem C5_second_kill_counterexample :
    ((running_supervisor.kill_process 1).2.1.count (Event.processKilled 1) = 1) ∧
    (((running_supervisor.kill_process 1).1.kill_process 1).2.2 = Except.ok ()) ∧
    (((running_supervisor.kill_process 1).1.kill_process 1).2.1.count
      (Event.processKilled 1) = 1) := by
  refine ⟨by decide, rfl, by decide⟩

/-- Updating a key that is present makes lookup return the new value. -/
theorem lookup_update_process (procs : List (Nat × Process)) (process_id : Nat)
    (q : Process) (h : (lookup_process procs process_id).isSome) :
    lookup_process (update_process procs process_id q) process_id = some q := by
  induction procs with
  | nil => simp [lookup_process] at h
  | cons kv rest ih =>
      cases hk : (kv.1 == process_id) with
      | true => simp [lookup_process, update_process, List.find?, hk]
      | false =>
          have h2 : (lookup_process rest process_id).isSome := by
            simpa [lookup_process, List.find?, hk] using h
          simpa [lookup_process, update_process, List.find?, hk] using ih h2

/-- Unfolding of StateManager::kill_process when the process is registered. -/
theorem kill_process_found (sm : StateManager) (process_id : Nat) (p : Process)
    (h : lookup_process sm.processes process_id = some p) :
    sm.kill_process process_id =
      ({ processes := update_process sm.processes process_id
           { p with status := ProcessStatus.killed },
         task_handles := sm.task_handles.filter (fun h2 => !(h2 == process_id)) },
       [Event.processStatusUpdate p.id ProcessStatus.killed p.current_step_index,
        Event.processKilled p.id], Except.ok ()) := by
  simp [StateManager.kill_process, h, kill_process_state]

/-- C5 (amended): kill on a registered process succeeds, sets its status to
Killed, emits exactly one kill event (after the status update), and drops the
task handle; a kill on an id with no registered process drops the handle,
emits no event at all and reports not-found through the Result (never a
crash); but since the registry entry is never removed, a second kill on the
same id succeeds again and emits one more kill event rather than being a
no-op or not-found. -/
theorem C5_kill_behavior (sm : StateManager) (process_id : Nat) (p : Process)
    (h : lookup_process sm.processes process_id = some p) :
    (sm.kill_process process_id).2.2 = Except.ok () ∧
    (sm.kill_process process_id).2.1 =
      [Event.processStatusUpdate p.id ProcessStatus.killed p.current_step_index,
       Event.processKilled p.id] ∧
    process_id ∉ (sm.kill_process process_id).1.task_handles ∧
    lookup_process (sm.kill_process process_id).1.processes process_id =
      some { p with status := ProcessStatus.killed } ∧
    ((sm.kill_process process_id).1.kill_process process_id).2.2 = Except.ok () ∧
    ((sm.kill_process process_id).1.kill_process process_id).2.1 =
      [Event.processStatusUpdate p.id ProcessStatus.killed p.current_step_index,
       Event.processKilled p.id] ∧
    (∀ (sm2 : StateManager) (id2 : Nat),
      lookup_process sm2.processes id2 = none →
      sm2.kill_process id2 =
        ({ sm2 with task_handles := sm2.task_handles.filter (fun h2 => !(h2 == id2)) },
         [], Except.error ("Process " ++ toString id2 ++ " not found"))) := by
  have hk1 := kill_process_found sm process_id p h
  have hlook : lookup_process (sm.kill_process process_id).1.processes process_id =
      some { p with status := ProcessStatus.killed } := by
    rw [hk1]
    exact lookup_update_process sm.processes process_id _ (by simp [h])
  have hk2 := kill_process_found (sm.kill_process process_id).1 process_id
    { p with status := ProcessStatus.killed } hlook
  refine ⟨?_, ?_, ?_, hlook, ?_, ?_, ?_⟩
  · simp [hk1]
  · simp [hk1]
  · simp [hk1, List.mem_filter]
  · simp [hk2]
  · simp [hk2]
  · intro sm2 id2 h2
    simp [StateManager.kill_process, h2]

/-- C5 witness: the single-kill half of the amended statement evaluated on
the concrete running supervisor, and the not-found branch evaluated on an
empty supervisor. -/
theorem C5_kill_behavior_witness :
    (running_supervisor.kill_process 1).2.1 =
      [Event.processStatusUpdate 1 ProcessStatus.killed 0, Event.processKilled 1] ∧
    (StateManager.mk [] []).kill_process 5 =
      (StateManager.mk [] [], [], Except.error ("Process " ++ toString 5 ++ " not found")) :=
  ⟨(C5_kill_behavior running_supervisor 1
      { id := 1, pipeline_name := "long-running", status := ProcessStatus.running,
        current_step_index := 0, logs := [], resume_notifications := 0 } rfl).2.1,
   (C5_kill_behavior running_supervisor 1
      { id := 1, pipeline_name := "long-running", status := ProcessStatus.running,
        current_step_index := 0, logs := [], resume_notifications := 0 } rfl).2.2.2.2.2.2
     (StateManager.mk [] []) 5 rfl⟩

/-- C6: AgentManager::execute resolves the requested agent, delegating when
it is available; a name that is not registered fails with the not-found
NotAvailable message; a registered but unavailable agent falls back only when
a fallback name is configured and differs from the requested name (and the
fallback exists and is available); when no candidate is available the
found-but-unavailable NotAvailable message is returned, whose wording differs
from the not-found one. -/
theorem C6_execute_lookup_and_fallback (m : AgentManager) (name : String)
    (ctx : ExecutionContext) :
    (m.get_agent name = none →
      m.execute name ctx = Except.error (AgentError.notAvailable
        ("Agent '" ++ name ++ "' not found in registry"))) ∧
    (∀ a, m.get_agent name = some a → a.check_availability = true →
      m.execute name ctx = a.execute ctx) ∧
    (∀ a, m.get_agent name = some a → a.check_availability = false →
      (m.fallback_agent_name = none ∨ m.fallback_agent_name = some name) →
      m.execute name ctx = Except.error (AgentError.notAvailable
        ("Agent '" ++ name ++ "' is not available and no fallback succeeded"))) ∧
    (∀ a fb fa, m.get_agent name = some a → a.check_availability = false →
      m.fallback_agent_name = some fb → fb ≠ name → m.get_agent fb = some fa →
      fa.check_availability = true →
      m.execute name ctx = fa.execute ctx) ∧
    (∀ a fb, m.get_agent name = some a → a.check_availability = false →
      m.fallback_agent_name = some fb → fb ≠ name → m.get_agent fb = none →
      m.execute name ctx = Except.error (AgentError.notAvailable
        ("Agent '" ++ name ++ "' is not available and no fallback succeeded"))) ∧
    (∀ a fb fa, m.get_agent name = some a → a.check_availability = false →
      m.fallback_agent_name = some fb → fb ≠ name → m.get_agent fb = some fa →
      fa.check_availability = false →
      m.execute name ctx = Except.error (AgentError.notAvailable
        ("Agent '" ++ name ++ "' is not available and no fallback succeeded"))) ∧
    (("Agent '" ++ name ++ "' not found in registry") ≠
      ("Agent '" ++ name ++ "' is not available and no fallback succeeded")) := by
  refine ⟨?_, ?_, ?_, ?_, ?_, ?_, ?_⟩
  · intro h
    simp [AgentManager.execute, h]
  · intro a h1 h2
    simp [AgentManager.execute, h1, h2]
  · intro a h1 h2 h3
    rcases h3 with h3 | h3 <;> simp [AgentManager.execute, h1, h2, h3]
  · intro a fb fa h1 h2 h3 h4 h5 h6
    simp [AgentManager.execute, h1, h2, h3, h4, h5, h6]
  · intro a fb h1 h2 h3 h4 h5
    simp [AgentManager.execute, h1, h2, h3, h4, h5]
  · intro a fb fa h1 h2 h3 h4 h5 h6
    simp [AgentManager.execute, h1, h2, h3, h4, h5, h6]
  · intro hcontr
    have hlen := congrArg String.length hcontr
    simp only [String.length_append] at hlen
    have l1 : ("' not found in registry" : String).length = 23 := by decide
    have l2 : ("' is not available and no fallback succeeded" : String).length = 44 := by
      decide
    rw [l1, l2] at hlen
    omega

/-- C6 witness: with an unavailable primary agent and an available, distinct
fallback agent configured, execute delegates to the fallback; with an empty
registry the not-found error is produced. -/
theorem C6_execute_witness :
    fallback_manager.execute "primary" { instruction := "test instruction" } =
      mock_agent_success.execute { instruction := "test instruction" } ∧
    (AgentManager.mk [] none).execute "ghost" { instruction := "test instruction" } =
      Except.error (AgentError.notAvailable
        ("Agent '" ++ "ghost" ++ "' not found in registry")) :=
  ⟨(C6_execute_lookup_and_fallback fallback_manager "primary"
      { instruction := "test instruction" }).2.2.2.1
    mock_agent_unavailable "backup" mock_agent_success rfl rfl rfl
    (by decide) rfl rfl,
   (C6_execute_lookup_and_fallback (AgentManager.mk [] none) "ghost"
      { instruction := "test instruction" }).1 rfl⟩

/-- C7 counterexample: on the non-blank unparseable line oops, the Qwen
adapter's notification stream yields no StreamParseError at all (it only
appends the synthetic Completed), falsifying the claim that every adapter
yields exactly one StreamParseError per malformed line; the shared
CliExecutor, by contrast, does yield exactly one. -/
theorem C7_qwen_swallows_parse_error_counterexample :
    is_blank "oops" = false ∧
    qwen_notification_stream reject_all_parse ["oops"] = [Except.ok AgentEvent.completed] ∧
    (qwen_notification_stream reject_all_parse ["oops"]).countP is_stream_parse_error = 0 ∧
    (cli_executor_lines reject_all_parse_cli ["oops"]).countP is_stream_parse_error = 1 := by
  refine ⟨by decide, rfl, by decide, by decide⟩

/-- C7 (amended): blank stdout lines are skipped by the CliExecutor, the
Claude adapter and the Qwen adapter; a non-blank line that fails to parse
yields exactly one StreamParseError item, without terminating the stream, in
the CliExecutor and in the Claude adapter; the Qwen adapter instead skips
such a line entirely (logging to stderr only), emitting no event for it. -/
theorem C7_line_error_handling {α μ : Type} (parse : String → Except String α)
    (mparse : String → Except String μ)
    (convert : μ → Option (Except AgentError AgentEvent))
    (qparse : String → Except String QwenDecoded)
    (line : String) (rest : List String) :
    (is_blank line = true →
      cli_executor_lines parse (line :: rest) = cli_executor_lines parse rest ∧
      claude_adapter_lines mparse convert (line :: rest) =
        claude_adapter_lines mparse convert rest ∧
      qwen_notification_stream qparse (line :: rest) =
        qwen_notification_stream qparse rest) ∧
    (∀ e, is_blank line = false → parse line = Except.error e →
      cli_executor_lines parse (line :: rest) =
        Except.error (AgentError.streamParseError
          ("Failed to parse JSON: " ++ e ++ " (line: " ++ line ++ ")")) ::
        cli_executor_lines parse rest) ∧
    (∀ e, is_blank line = false → mparse line = Except.error e →
      claude_adapter_lines mparse convert (line :: rest) =
        Except.error (AgentError.streamParseError
          ("Failed to parse JSON: " ++ e ++ " (line: " ++ line ++ ")")) ::
        claude_adapter_lines mparse convert rest) ∧
    (∀ e, is_blank line = false → qparse line = Except.error e →
      qwen_notification_stream qparse (line :: rest) =
        qwen_notification_stream qparse rest) := by
  refine ⟨?_, ?_, ?_, ?_⟩
  · intro h
    refine ⟨?_, ?_, ?_⟩ <;>
      simp [cli_executor_lines, claude_adapter_lines, qwen_notification_stream, h]
  · intro e h1 h2
    simp [cli_executor_lines, h1, h2]
  · intro e h1 h2
    simp [claude_adapter_lines, h1, h2]
  · intro e h1 h2
    simp [qwen_notification_stream, h1, h2]

/-- C7 witness: the amended behavior evaluated on the line oops with a
rejecting parser: the CliExecutor emits one StreamParseError and continues;
the Qwen stream drops the line. -/
theorem C7_line_error_handling_witness :
    cli_executor_lines reject_all_parse_cli ["oops"] =
      Except.error (AgentError.streamParseError
        ("Failed to parse JSON: " ++ "expected value" ++ " (line: " ++ "oops" ++ ")")) ::
      cli_executor_lines reject_all_parse_cli [] ∧
    qwen_notification_stream reject_all_parse ["oops"] =
      qwen_notification_stream reject_all_parse [] :=
  ⟨(C7_line_error_handling reject_all_parse_cli reject_all_parse_cli (fun _ => none)
      reject_all_parse "oops" []).2.1 "expected value" (by decide) rfl,
   (C7_line_error_handling reject_all_parse_cli reject_all_parse_cli (fun _ => none)
      reject_all_parse "oops" []).2.2.2 "expected value" (by decide) rfl⟩

/-- C8: the factory selects the adapter type by substring/prefix matching on
the lowercased model identifier, every model name with no matching pattern
maps to the Mock type and yields one of the deterministic mock
implementations, and construction succeeds for every configuration. -/
theorem C8_factory_never_fails (config : AgentConfig) :
    (∃ inst, AgentFactory.create config = Except.ok inst) ∧
    (str_contains (str_to_lower config.model) "claude" = true →
      AgentType.from_model_name config.model = AgentType.claude) ∧
    (str_contains (str_to_lower config.model) "claude" = false →
     str_starts_with (str_to_lower config.model) "gpt" = false →
     str_contains (str_to_lower config.model) "cursor" = false →
     str_starts_with (str_to_lower config.model) "sonnet" = false →
     str_starts_with (str_to_lower config.model) "opus" = false →
     str_contains (str_to_lower config.model) "gemini" = false →
     str_contains (str_to_lower config.model) "codex" = false →
     str_contains (str_to_lower config.model) "qwen" = false →
      AgentType.from_model_name config.model = AgentType.mock ∧
      (AgentFactory.create config = Except.ok AgentInstance.mockSuccess ∨
       AgentFactory.create config = Except.ok AgentInstance.mockFailing ∨
       AgentFactory.create config = Except.ok AgentInstance.mockUnavailable)) := by
  refine ⟨?_, ?_, ?_⟩
  · unfold AgentFactory.create
    cases h : AgentType.from_model_name config.model
    case claude => exact ⟨_, rfl⟩
    case cursor => exact ⟨_, rfl⟩
    case gemini => exact ⟨_, rfl⟩
    case codex => exact ⟨_, rfl⟩
    case qwen => exact ⟨_, rfl⟩
    case mock =>
      by_cases hf : config.model = "test-failure-model"
      · exact ⟨AgentInstance.mockFailing, by simp [hf]⟩
      · by_cases hu : config.model = "test-unavailable-model"
        · exact ⟨AgentInstance.mockUnavailable, by simp [hf, hu]⟩
        · exact ⟨AgentInstance.mockSuccess, by simp [hf, hu]⟩
  · intro h
    simp [AgentType.from_model_name, h]
  · intro h1 h2 h3 h4 h5 h6 h7 h8
    have hm : AgentType.from_model_name config.model = AgentType.mock := by
      simp [AgentType.from_model_name, h1, h2, h3, h4, h5, h6, h7, h8]
    refine ⟨hm, ?_⟩
    unfold AgentFactory.create
    rw [hm]
    by_cases hf : config.model = "test-failure-model"
    · simp [hf]
    · by_cases hu : config.model = "test-unavailable-model" <;> simp [hf, hu]

/-- C8 witness: the model name unknown-model matches no pattern, maps to the
Mock type and yields a mock instance from the factory. -/
theorem C8_factory_witness :
    AgentType.from_model_name unknown_model_config.model = AgentType.mock ∧
    (AgentFactory.create unknown_model_config = Except.ok AgentInstance.mockSuccess ∨
     AgentFactory.create unknown_model_config = Except.ok AgentInstance.mockFailing ∨
     AgentFactory.create unknown_model_config = Except.ok AgentInstance.mockUnavailable) :=
  (C8_factory_never_fails unknown_model_config).2.2 (by decide) (by decide) (by decide)
    (by decide) (by decide) (by decide) (by decide) (by decide)

/-- C9: ensure_qwen_md is idempotent on the project filesystem: applying it
twice equals applying it once; an existing QWEN.md is left untouched (the
whole filesystem is unchanged); and when the file is absent it is created
containing the header and the system prompt. -/
theorem C9_ensure_qwen_md_idempotent (prompt project_path : String) (fs : FileSystem) :
    ensure_qwen_md prompt project_path (ensure_qwen_md prompt project_path fs) =
      ensure_qwen_md prompt project_path fs ∧
    (∀ content, fs (qwen_md_path project_path) = some content →
      ensure_qwen_md prompt project_path fs = fs) ∧
    (fs (qwen_md_path project_path) = none →
      ensure_qwen_md prompt project_path fs (qwen_md_path project_path) =
        some ("# QWEN\n\n" ++ prompt)) := by
  refine ⟨?_, ?_, ?_⟩
  · cases h : fs (qwen_md_path project_path) with
    | some c => simp [ensure_qwen_md, h]
    | none => simp [ensure_qwen_md, h]
  · intro content h
    simp [ensure_qwen_md, h]
  · intro h
    simp [ensure_qwen_md, h]

/-- C9 witness: creating QWEN.md on an empty filesystem stores the header
plus the system prompt at the project root. -/
theorem C9_ensure_qwen_md_witness :
    ensure_qwen_md "You are a test assistant." "/tmp/proj" empty_fs
      (qwen_md_path "/tmp/proj") =
      some ("# QWEN\n\n" ++ "You are a test assistant.") :=
  (C9_ensure_qwen_md_idempotent "You are a test assistant." "/tmp/proj" empty_fs).2.2 rfl

/-- C10: immediately after startPipeline returns, before the spawned engine
task has run, the returned id is registered: getProcess on it returns the
initial process with that id, the started pipeline's name, Pending status,
step index 0 and empty logs, and a task handle is recorded for it. -/
theorem C10_start_pipeline_registers (sm : StateManager) (fresh_id : Nat)
    (pipeline : Pipeline) :
    (sm.start_pipeline fresh_id pipeline).2 = fresh_id ∧
    (sm.start_pipeline fresh_id pipeline).1.get_process fresh_id =
      some { id := fresh_id, pipeline_name := pipeline.name,
             status := ProcessStatus.pending, current_step_index := 0,
             logs := [], resume_notifications := 0 } ∧
    fresh_id ∈ (sm.start_pipeline fresh_id pipeline).1.task_handles := by
  refine ⟨rfl, ?_, ?_⟩
  · simp [StateManager.start_pipeline, StateManager.create_and_register_process,
      StateManager.get_process, lookup_process, insert_process, create_process,
      List.find?]
  · simp [StateManager.start_pipeline, StateManager.create_and_register_process]

end PipelineKit
